import Mathlib

/-!
Verification development for the Aurea underwriting pipeline
(src/backend/src of the repository).

The Python sources are shallowly embedded: Python floats are modelled as
rationals, Python dict values as an inductive `Value`, code that can
raise as `Except String`, external calls as explicit outcome arguments.
Each definition is translated from the named source function.  String
primitives are implemented structurally on `List Char` so that they
evaluate by kernel reduction.
-/

/-- Python's built-in `round(x, d)`: round to `d` decimal places, ties to
the even last digit (banker's rounding).  For floats Python rounds the
exact binary value of `x`; every concrete value this development
evaluates `pyRound` at is exactly representable in binary, so the
rational model agrees with the float behaviour. -/
def pyRound (q : ℚ) (d : ℕ) : ℚ :=
  let m : ℚ := q * (10 : ℚ) ^ d
  let fl : ℤ := ⌊m⌋
  let frac : ℚ := m - (fl : ℚ)
  let r : ℤ :=
    if frac < 1 / 2 then fl
    else if 1 / 2 < frac then fl + 1
    else if fl % 2 = 0 then fl else fl + 1
  (r : ℚ) / (10 : ℚ) ^ d

/-- A Python value as it appears in the agent state dictionaries:
`None`, a string, a number (int or float), or a list. -/
inductive Value where
  | vnull : Value
  | vs : String → Value
  | vq : ℚ → Value
  | vlist : List Value → Value

/-- Whether a value is a Python list (`isinstance(v, list)`). -/
def Value.isList : Value → Bool
  | Value.vlist _ => true
  | _ => false

/-- The underlying list of a list value (`[]` otherwise). -/
def Value.asList : Value → List Value
  | Value.vlist l => l
  | _ => []

/-- Numeric value of one decimal digit character. -/
def digitVal (c : Char) : Option ℕ :=
  if c.isDigit then some (c.toNat - 48) else none

/-- Parse a non-empty string of decimal digits. -/
def natOfDigits : List Char → Option ℕ
  | [] => none
  | cs =>
    cs.foldl
      (fun acc c =>
        match acc, digitVal c with
        | some n, some d => some (n * 10 + d)
        | _, _ => none)
      (some 0)

/-- Split a character list at every occurrence of a separator character. -/
def splitOnChar (sep : Char) : List Char → List (List Char)
  | [] => [[]]
  | c :: rest =>
    let tail := splitOnChar sep rest
    if c = sep then [] :: tail
    else
      match tail with
      | [] => [[c]]
      | g :: gs => (c :: g) :: gs

/-- Whitespace test used by `str.strip()` (ASCII whitespace suffices for
the strings arising here). -/
def isPySpace (c : Char) : Bool := c = ' ' || c = '\t' || c = '\n' || c = '\r'

/-- Python's `str.strip()` on a character list. -/
def pyStrip (cs : List Char) : List Char :=
  ((cs.dropWhile isPySpace).reverse.dropWhile isPySpace).reverse

/-- The fragment of Python's `float(str)` grammar exercised here:
optional sign, then decimal digits with an optional decimal point.
(Exponents, `inf`, `nan` and underscore separators are not modelled; no
input in this development uses them.) -/
def pyFloatOfString (s : String) : Option ℚ :=
  let t := pyStrip s.data
  let sign : ℚ := if t.take 1 = ['-'] then -1 else 1
  let body := if t.take 1 = ['-'] || t.take 1 = ['+'] then t.drop 1 else t
  match splitOnChar '.' body with
  | [ip] => (natOfDigits ip).map (fun n => sign * n)
  | [ip, fp] =>
    if ip.isEmpty && fp.isEmpty then none
    else
      let ipn := if ip.isEmpty then some 0 else natOfDigits ip
      let fpn := if fp.isEmpty then some 0 else natOfDigits fp
      match ipn, fpn with
      | some i, some f => some (sign * ((i : ℚ) + (f : ℚ) / (10 : ℚ) ^ fp.length))
      | _, _ => none
  | _ => none

/-- Python's `float(v)`: succeeds on numbers and numeric strings, raises
`TypeError` / `ValueError` otherwise. -/
def pyFloat : Value → Except String ℚ
  | Value.vq q => Except.ok q
  | Value.vs s =>
    match pyFloatOfString s with
    | some q => Except.ok q
    | none => Except.error ("ValueError: could not convert string to float: " ++ s)
  | Value.vnull => Except.error "TypeError: float() argument must not be None"
  | Value.vlist _ => Except.error "TypeError: float() argument must not be a list"

/-- A Python dict with string keys, as an association list (the dicts
modelled here have pairwise distinct keys). -/
def PyDict : Type := List (String × Value)

/-- Python's `d.get(k, default)`. -/
def dictGet (d : PyDict) (k : String) (default : Value) : Value :=
  match d.find? (fun kv => kv.1 = k) with
  | some kv => kv.2
  | none => default

/-- Output record of `_fallback_decision` (src/backend/src/agents/nodes/
coordinator_agent.py, lines 24-34). -/
structure FallbackDecision where
  overall_risk_score : ℚ
  premium_multiplier : ℚ
  decision : String
  underwriter_reasoning : String

/-- `_fallback_decision(flood_score, planning_score, age_score,
locality_score, error)` from coordinator_agent.py lines 24-34: overall is
the weighted average rounded to 1 decimal; the multiplier is rounded to 2
decimals and then clamped with `max(0.8, min(multiplier, 3.0))`; the
decision is chosen by thresholds on the rounded overall. -/
def fallback_decision (flood_score planning_score age_score locality_score : ℚ)
    (error : String) : FallbackDecision :=
  let overall :=
    pyRound (flood_score * 0.40 + planning_score * 0.20 + age_score * 0.25
      + locality_score * 0.15) 1
  let multiplier := pyRound (1.0 + (overall / 100) * 2.0) 2
  let decision :=
    if overall < 60 then "accept" else if overall < 80 then "refer" else "decline"
  { overall_risk_score := overall
    premium_multiplier := max 0.8 (min multiplier 3.0)
    decision := decision
    underwriter_reasoning :=
      "Deterministic fallback applied (LLM unavailable: " ++ error.take 120
        ++ "). Weighted average of sub-scores used." }

/-- The fallback result as the dict `_fallback_decision` returns. -/
def fallbackDict (fd : FallbackDecision) : PyDict :=
  [("overall_risk_score", Value.vq fd.overall_risk_score),
   ("premium_multiplier", Value.vq fd.premium_multiplier),
   ("decision", Value.vs fd.decision),
   ("underwriter_reasoning", Value.vs fd.underwriter_reasoning)]

/-- The slice of the pipeline state read by `coordinator_agent`
(coordinator_agent.py lines 42-49): the four sub-scores, absent when the
corresponding stage key is missing. -/
structure CoordState where
  flood_risk_score : Option ℚ
  planning_risk_score : Option ℚ
  property_age_risk_score : Option ℚ
  locality_safety_score : Option ℚ

/-- The partial update returned by `coordinator_agent`
(coordinator_agent.py lines 120-125). -/
structure CoordinatorUpdate where
  overall_risk_score : ℚ
  premium_multiplier : ℚ
  decision : Value
  underwriter_reasoning : Value

/-- `coordinator_agent` from coordinator_agent.py lines 37-125.  The
whole Bedrock interaction (lines 89-112: client creation, `invoke_model`,
body read, fence stripping, `json.loads`, and the logging access
`result.get(...)` which raises unless the parsed JSON is a dict) sits in
one `try` whose `except` substitutes `_fallback_decision`; it is modelled
by the `oracle` argument: `Except.error e` when anything in the `try`
raised, `Except.ok d` when it produced the dict `d`.  The conversions
`float(result.get("overall_risk_score", 50))` and
`float(result.get("premium_multiplier", 1.0))` on lines 121-122 run
OUTSIDE that `try`, so their exceptions propagate out of the agent; the
model therefore returns `Except.error` exactly there. -/
def coordinator_agent (state : CoordState) (oracle : Except String PyDict) :
    Except String CoordinatorUpdate :=
  let flood_score := state.flood_risk_score.getD 20.0
  let planning_score := state.planning_risk_score.getD 10.0
  let age_score := state.property_age_risk_score.getD 30.0
  let locality_score := state.locality_safety_score.getD 25.0
  let result : PyDict :=
    match oracle with
    | Except.ok d => d
    | Except.error e =>
      fallbackDict (fallback_decision flood_score planning_score age_score locality_score e)
  do
    let overall ← pyFloat (dictGet result "overall_risk_score" (Value.vq 50))
    let multiplier ← pyFloat (dictGet result "premium_multiplier" (Value.vq 1.0))
    pure
      { overall_risk_score := overall
        premium_multiplier := multiplier
        decision := dictGet result "decision" (Value.vs "refer")
        underwriter_reasoning := dictGet result "underwriter_reasoning" (Value.vs "") }

/-- Does the pattern occur as a prefix? -/
def charsStartsWith : List Char → List Char → Bool
  | [], _ => true
  | _ :: _, [] => false
  | p :: ps, c :: cs => p = c && charsStartsWith ps cs

/-- Python's substring test `pat in s`, on character lists. -/
def charsContains (pat : List Char) : List Char → Bool
  | [] => charsStartsWith pat []
  | c :: rest => charsStartsWith pat (c :: rest) || charsContains pat rest

/-- Python's `s.endswith(pat)`, on character lists. -/
def charsEndsWith (pat s : List Char) : Bool :=
  charsStartsWith pat.reverse s.reverse

/-- One entity of the planning.data.gov.uk `flood-risk-zone` response, as
read by `_parse_zone`: the stringified `flood-risk-level`, `reference`
and `name` fields (`str(entity.get(..., ""))`). -/
structure Entity where
  flood_risk_level : String
  reference : String
  name : String

/-- `int(z) > int(detected)` in `_parse_zone`, with `detected is None`
folded in. -/
def zoneBetter (det : Option Char) (z : Char) : Bool :=
  match det with
  | none => true
  | some d => decide (d.toNat < z.toNat)

/-- The per-zone match test of `_parse_zone` (flood_risk_agent.py lines
165-179): substring and suffix patterns over the lower-cased
level/reference/name fields. -/
def zoneMatch (e : Entity) (z : Char) : Bool :=
  let level := e.flood_risk_level.data.map Char.toLower
  let ref := e.reference.data.map Char.toLower
  let name := e.name.data.map Char.toLower
  let combined := level ++ (' ' :: ref) ++ (' ' :: name)
  charsContains ("zone-".data ++ [z]) combined
    || charsContains ("zone ".data ++ [z]) combined
    || charsContains ("fz".data ++ [z]) combined
    || pyStrip combined = [z]
    || charsEndsWith ('/' :: [z]) ref
    || charsEndsWith ('-' :: [z]) ref

/-- `_parse_zone` from flood_risk_agent.py lines 150-182: scan every
entity, try zones "3", "2", "1", keep the highest zone matched. -/
def parse_zone (entities : List Entity) : Option Char :=
  entities.foldl
    (fun detected e =>
      ['3', '2', '1'].foldl
        (fun det z => if zoneMatch e z && zoneBetter det z then some z else det)
        detected)
    none

/-- `ZONE_SCORES` from flood_risk_agent.py line 49. -/
def ZONE_SCORES (z : String) : ℚ :=
  if z = "1" then 5 else if z = "2" then 45 else if z = "3" then 85 else 20

/-- The warning appended when the flood zone cannot be determined
(flood_risk_agent.py lines 271-274). -/
def floodZoneUnavailableMsg : String :=
  "Flood zone data unavailable: planning.data.gov.uk did not respond. Manual verification required."

/-- Result of the zone-classification block. -/
structure ZoneClassification where
  flood_zone : String
  base_score : ℚ
  errors : List String

/-- Lines 250-275 of flood_risk_agent.py.  `zoneData = none` models the
empty dict `{}` that `_fetch_flood_zone_entities` returns on a non-200
status, empty body or any exception (so `api_responded` is false);
`some es` models a non-empty response object whose extracted entities
list is `es`. -/
def classify_flood_zone (zoneData : Option (List Entity)) : ZoneClassification :=
  let entities := zoneData.getD []
  match parse_zone entities with
  | some z =>
    { flood_zone := String.mk [z], base_score := ZONE_SCORES (String.mk [z]), errors := [] }
  | none =>
    match zoneData with
    | some es =>
      if es.isEmpty then { flood_zone := "1", base_score := 5, errors := [] }
      else { flood_zone := "unknown", base_score := 20, errors := [floodZoneUnavailableMsg] }
    | none => { flood_zone := "unknown", base_score := 20, errors := [floodZoneUnavailableMsg] }

/-- Score uplift from live EA warnings (flood_risk_agent.py lines
283-291), from the severities of the active warnings (the fetch helper
already filtered to severity < 4). -/
def warning_uplift (severities : List ℤ) : ℚ :=
  match severities with
  | [] => 0
  | w :: ws =>
    let m := ws.foldl min w
    if m = 1 then 30 else if m = 2 then 20 else if m = 3 then 10 else 0

/-- The endpoint constants of flood_risk_agent.py lines 37-38. -/
def PLANNING_DATA_URL : String := "https://www.planning.data.gov.uk/entity.json"

/-- EA flood monitoring endpoint (flood_risk_agent.py line 38). -/
def EA_FLOOD_WARNINGS_URL : String :=
  "https://environment.data.gov.uk/flood-monitoring/id/floods"

/-- The fields of the partial update returned by `flood_risk_agent` that
the claims mention (`raw_flood_data` and the reasoning text are elided). -/
structure FloodRiskUpdate where
  flood_zone : String
  flood_risk_score : ℚ
  data_collection_errors : List String

/-- `flood_risk_agent` from flood_risk_agent.py lines 212-368, paired
with the list of external endpoints it contacts.  When a coordinate is
missing (`state.get` returns `None`) it returns at lines 229-240, before
`httpx.AsyncClient` is created, so the call list is empty; otherwise both
lookups run and the zone classification plus warning uplift produce the
score. -/
def flood_risk_agent (latitude longitude : Option ℚ)
    (zoneData : Option (List Entity)) (warningSeverities : List ℤ) :
    FloodRiskUpdate × List String :=
  match latitude, longitude with
  | some _, some _ =>
    let c := classify_flood_zone zoneData
    let uplift := warning_uplift warningSeverities
    ({ flood_zone := c.flood_zone
       flood_risk_score := min 100.0 (c.base_score + uplift)
       data_collection_errors := c.errors },
     [PLANNING_DATA_URL, EA_FLOOD_WARNINGS_URL])
  | _, _ =>
    ({ flood_zone := "unknown"
       flood_risk_score := 20.0
       data_collection_errors := ["Flood zone evaluation skipped: no coordinates."] },
     [])

/-- `CATEGORY_WEIGHTS` with `DEFAULT_WEIGHT` fallback
(locality_safety_agent.py lines 32-39). -/
def CATEGORY_WEIGHTS (cat : String) : ℚ :=
  if cat = "burglary" then 3.0
  else if cat = "criminal-damage-arson" then 2.5
  else if cat = "robbery" then 1.5
  else if cat = "vehicle-crime" then 1.0
  else if cat = "theft-from-the-person" then 0.8
  else 0.3

/-- `_score_crimes` (locality_safety_agent.py lines 163-175), restricted
to the score (category counts are elided); a crime is represented by its
category string (`crime.get("category", "other")`). -/
def score_crimes (crimes : List String) : ℚ :=
  let weighted_total := crimes.foldl (fun acc cat => acc + CATEGORY_WEIGHTS cat) 0.0
  min (pyRound (weighted_total / 96) 1) 100

/-- `_label` with `SCORE_LABELS` (locality_safety_agent.py lines 41-60). -/
def locality_label (score : ℚ) : String :=
  if score < 20 then "Very Low Crime"
  else if score < 40 then "Low Crime"
  else if score < 60 then "Moderate Crime"
  else if score < 80 then "High Crime"
  else "Very High Crime"

/-- Police UK endpoint (locality_safety_agent.py line 30). -/
def POLICE_API_URL : String := "https://data.police.uk/api/crimes-street/all-crime"

/-- The fields of the partial update returned by `locality_safety_agent`
that the claims mention (`raw_crime_data` and the reasoning text are
elided). -/
structure LocalityUpdate where
  locality_safety_score : ℚ
  locality_safety_label : String
  data_collection_errors : List String

/-- `locality_safety_agent` from locality_safety_agent.py lines 178-259,
paired with the list of external endpoints it contacts.  With a missing
coordinate it returns at lines 189-197 before `httpx.AsyncClient` is
created (no calls); otherwise `_fetch_crimes` runs under the `try` of
lines 201-215, modelled by `crimesOutcome` (`Except.error` when the fetch
raised, `Except.ok` with the crime category list otherwise). -/
def locality_safety_agent (latitude longitude : Option ℚ)
    (crimesOutcome : Except String (List String)) :
    LocalityUpdate × List String :=
  match latitude, longitude with
  | some _, some _ =>
    (match crimesOutcome with
     | Except.error e =>
       ({ locality_safety_score := 25.0
          locality_safety_label := "Low Crime"
          data_collection_errors :=
            ["Locality safety data unavailable: Police UK API error — " ++ e] },
        [POLICE_API_URL])
     | Except.ok crimes =>
       if crimes.isEmpty then
         ({ locality_safety_score := 25.0
            locality_safety_label := "Low Crime"
            data_collection_errors :=
              ["Locality safety: Police UK API returned no crime data for this location."] },
          [POLICE_API_URL])
       else
         let score := score_crimes crimes
         ({ locality_safety_score := score
            locality_safety_label := locality_label score
            data_collection_errors := [] },
          [POLICE_API_URL]))
  | _, _ =>
    ({ locality_safety_score := 25.0
       locality_safety_label := "Low Crime"
       data_collection_errors := ["Locality safety evaluation skipped: no coordinates."] },
     [])

/-- `_LIST_APPEND_FIELDS` (underwriting_service.py line 21): the state
fields that accumulate by list concatenation. -/
def LIST_APPEND_FIELDS : List String :=
  ["data_collection_errors", "errors", "policy_context", "risk_factors", "policy_citations"]

/-- The pipeline state as a mapping field name to value; `none` models an
absent key. -/
def StateMap : Type := String → Option Value

/-- `list(result.get(k) or [])` for the shapes the accumulating fields
take in this pipeline: absent, `None`, or a list (`or` maps the falsy
values, in particular `None` and `[]`, to `[]`). -/
def pyListOrEmpty : Option Value → List Value
  | some (Value.vlist l) => l
  | _ => []

/-- One iteration of the `for k, v in update.items()` loop of `_merge`
(underwriting_service.py lines 37-45), writing into the result dict. -/
def mergeItem (st : StateMap) (kv : String × Value) : StateMap :=
  fun k =>
    if k = kv.1 then
      if kv.1 ∈ LIST_APPEND_FIELDS ∧ kv.2.isList then
        some (Value.vlist (pyListOrEmpty (st kv.1) ++ kv.2.asList))
      else some kv.2
    else st k

/-- `_merge(state, update)` (underwriting_service.py lines 37-45): copy
the state, then iterate over the update items, appending list values on
accumulating fields and overwriting everything else.  Later items of the
same update read the writes of earlier ones, exactly as the Python loop
does on the mutable `result` dict. -/
def merge (state : StateMap) (update : List (String × Value)) : StateMap :=
  update.foldl mergeItem state

/-- The state after merging a sequence of node updates in arrival order,
as both `run_assessment_streaming` (line 135) and the batch graph runner
do. -/
def run_merges (init : StateMap) (updates : List (List (String × Value))) : StateMap :=
  updates.foldl merge init

/-- `_initial_state` (underwriting_service.py lines 24-34): the three
input strings plus an empty list for each accumulating field. -/
def initial_state (address postcode user_id : String) : StateMap := fun k =>
  if k = "address" then some (Value.vs address)
  else if k = "postcode" then some (Value.vs postcode)
  else if k = "user_id" then some (Value.vs user_id)
  else if k ∈ LIST_APPEND_FIELDS then some (Value.vlist [])
  else none

/-- All entries contributed to field `k` by one update, in item order. -/
def contrib (k : String) (u : List (String × Value)) : List Value :=
  ((u.filter (fun kv => kv.1 = k)).map (fun kv => kv.2.asList)).flatten

/-- The last value an update writes to field `k`, if any. -/
def lastWrite (k : String) : List (String × Value) → Option Value
  | [] => none
  | kv :: rest =>
    match lastWrite k rest with
    | some v => some v
    | none => if kv.1 = k then some kv.2 else none

/-- The last value any update of the sequence writes to field `k`,
defaulting to the initial value. -/
def lastWriteAll (k : String) (updates : List (List (String × Value)))
    (dflt : Option Value) : Option Value :=
  updates.foldl
    (fun acc u =>
      match lastWrite k u with
      | some v => some v
      | none => acc)
    dflt

/-- The fields of `AssessmentResponse` that the claims mention
(schemas/underwriting.py; the remaining scores, `risk_factors` and the
narrative are elided). -/
structure AssessmentResponse where
  decision : Value
  overall_risk_score : ℚ
  premium_multiplier : ℚ
  flood_risk_score : ℚ
  data_warnings : List Value

/-- `_save_and_build_response` (underwriting_service.py lines 48-102):
build the `PropertyAssessment` record (with `float()` conversions of the
score fields), then `await assessment.insert()` and `await
underwriting_result.insert()` - neither insert is wrapped in a `try`, so
an exception from either (modelled by the two `Except` arguments)
propagates out of the function. -/
def save_and_build_response (final_state : StateMap)
    (insertAssessment : Except String Unit) (insertUnderwriting : Except String Unit) :
    Except String AssessmentResponse := do
  let decision := (final_state "decision").getD (Value.vs "refer")
  let overall ← pyFloat ((final_state "overall_risk_score").getD (Value.vq 50))
  let multiplier ← pyFloat ((final_state "premium_multiplier").getD (Value.vq 1.0))
  let flood ← pyFloat ((final_state "flood_risk_score").getD (Value.vq 20))
  let data_warnings :=
    pyListOrEmpty (final_state "data_collection_errors")
      ++ pyListOrEmpty (final_state "errors")
  let _ ← insertAssessment
  let _ ← insertUnderwriting
  pure
    { decision := decision
      overall_risk_score := overall
      premium_multiplier := multiplier
      flood_risk_score := flood
      data_warnings := data_warnings }

/-- `run_assessment` (underwriting_service.py lines 105-107): run the
graph (`graphOutcome` is `Except.error` when a stage raised), then
persist and build the response; any exception propagates to the caller. -/
def run_assessment (graphOutcome : Except String StateMap)
    (insertAssessment insertUnderwriting : Except String Unit) :
    Except String AssessmentResponse := do
  let fs ← graphOutcome
  save_and_build_response fs insertAssessment insertUnderwriting

/-- The seven agent nodes registered in graph.py lines 54-60. -/
inductive Node where
  | PropertyValuationAgent : Node
  | FloodRiskAgent : Node
  | EnvironmentalDataAgent : Node
  | LocalitySafetyAgent : Node
  | PolicyAgent : Node
  | CoordinatorAgent : Node
  | ExplainabilityAgent : Node
deriving DecidableEq, Fintype

/-- `_PARALLEL_AGENTS` (underwriting_service.py line 12).  Python
iterates this set in an unspecified order; the properties proved below
are insensitive to the order, which is fixed here. -/
def PARALLEL_AGENTS : List Node :=
  [Node.FloodRiskAgent, Node.EnvironmentalDataAgent, Node.LocalitySafetyAgent]

/-- The SSE events emitted by `run_assessment_streaming`
(underwriting_service.py lines 110-166): agent lifecycle events, the
final `result` payload, and the closing `data: [DONE]` sentinel. -/
inductive SseEvent where
  | agent_start (agent : Node) : SseEvent
  | agent_end (agent : Node) : SseEvent
  | result : SseEvent
  | done : SseEvent
deriving DecidableEq

/-- The events the streaming loop body emits for one node update, given
the set of parallel agents already completed (underwriting_service.py
lines 140-161).  The completed set is tested after adding the current
node, as `completed_parallel.add` runs before the superset check. -/
def stepEvents (n : Node) (completed : List Node) : List SseEvent :=
  match n with
  | Node.PropertyValuationAgent =>
    [SseEvent.agent_end Node.PropertyValuationAgent]
      ++ PARALLEL_AGENTS.map SseEvent.agent_start
  | Node.FloodRiskAgent | Node.EnvironmentalDataAgent | Node.LocalitySafetyAgent =>
    [SseEvent.agent_end n]
      ++ (if PARALLEL_AGENTS.all (fun a => a = n || a ∈ completed) then
            [SseEvent.agent_start Node.PolicyAgent]
          else [])
  | Node.PolicyAgent =>
    [SseEvent.agent_end Node.PolicyAgent, SseEvent.agent_start Node.CoordinatorAgent]
  | Node.CoordinatorAgent =>
    [SseEvent.agent_end Node.CoordinatorAgent, SseEvent.agent_start Node.ExplainabilityAgent]
  | Node.ExplainabilityAgent =>
    [SseEvent.agent_end Node.ExplainabilityAgent]

/-- The `async for` loop of `run_assessment_streaming`, carrying the
`completed_parallel` set. -/
def emitLoop : List Node → List Node → List SseEvent
  | [], _ => []
  | n :: rest, completed =>
    stepEvents n completed
      ++ emitLoop rest (if n ∈ PARALLEL_AGENTS then n :: completed else completed)

/-- The full event sequence of `run_assessment_streaming` for a given
`astream` update order: the unconditional `agent_start` for
PropertyValuationAgent (line 129), the loop, then the `result` event and
the `[DONE]` sentinel (lines 163-166). -/
def run_assessment_streaming_events (updates : List Node) : List SseEvent :=
  [SseEvent.agent_start Node.PropertyValuationAgent]
    ++ emitLoop updates []
    ++ [SseEvent.result, SseEvent.done]

/-- The node list in registration order (graph.py lines 54-60). -/
def allAgents : List Node :=
  [Node.PropertyValuationAgent, Node.FloodRiskAgent, Node.EnvironmentalDataAgent,
   Node.LocalitySafetyAgent, Node.PolicyAgent, Node.CoordinatorAgent,
   Node.ExplainabilityAgent]

/-- The dependency edges added in graph.py lines 63-76 (the edge to END
is elided). -/
def graphEdges : List (Node × Node) :=
  [(Node.PropertyValuationAgent, Node.FloodRiskAgent),
   (Node.PropertyValuationAgent, Node.EnvironmentalDataAgent),
   (Node.PropertyValuationAgent, Node.LocalitySafetyAgent),
   (Node.FloodRiskAgent, Node.PolicyAgent),
   (Node.EnvironmentalDataAgent, Node.PolicyAgent),
   (Node.LocalitySafetyAgent, Node.PolicyAgent),
   (Node.PolicyAgent, Node.CoordinatorAgent),
   (Node.CoordinatorAgent, Node.ExplainabilityAgent)]

/-- Modelled from the spec (section 4.2) for the external LangGraph
runtime: an `astream` update sequence delivers each registered node
exactly once, and a node's update only after the updates of all its
graph predecessors.  This is the only assumption made about LangGraph;
the edge list itself comes from graph.py. -/
def ValidRun (ns : List Node) : Prop :=
  ns.Perm allAgents ∧ ∀ e ∈ graphEdges, ns.indexOf e.1 < ns.indexOf e.2

/-- The six `astream` orders compatible with the dependency edges:
PropertyValuationAgent first, the three parallel agents in any order,
then PolicyAgent, CoordinatorAgent, ExplainabilityAgent. -/
def validRunList : List (List Node) :=
  [[Node.FloodRiskAgent, Node.EnvironmentalDataAgent, Node.LocalitySafetyAgent],
   [Node.FloodRiskAgent, Node.LocalitySafetyAgent, Node.EnvironmentalDataAgent],
   [Node.EnvironmentalDataAgent, Node.FloodRiskAgent, Node.LocalitySafetyAgent],
   [Node.EnvironmentalDataAgent, Node.LocalitySafetyAgent, Node.FloodRiskAgent],
   [Node.LocalitySafetyAgent, Node.FloodRiskAgent, Node.EnvironmentalDataAgent],
   [Node.LocalitySafetyAgent, Node.EnvironmentalDataAgent, Node.FloodRiskAgent]].map
    (fun p =>
      Node.PropertyValuationAgent :: p
        ++ [Node.PolicyAgent, Node.CoordinatorAgent, Node.ExplainabilityAgent])

theorem contrib_cons (k : String) (kv : String × Value) (rest : List (String × Value)) :
    contrib k (kv :: rest)
      = if kv.1 = k then kv.2.asList ++ contrib k rest else contrib k rest := by
  by_cases h : kv.1 = k <;> simp [contrib, List.filter_cons, h]

theorem merge_acc_key (u : List (String × Value)) :
    ∀ (st : StateMap) (k : String), k ∈ LIST_APPEND_FIELDS →
      (∀ kv ∈ u, kv.1 ∈ LIST_APPEND_FIELDS → kv.2.isList = true) →
      ∀ l : List Value, st k = some (Value.vlist l) →
      merge st u k = some (Value.vlist (l ++ contrib k u)) := by
  induction u with
  | nil =>
    intro st k _ _ l hst
    simpa [merge, contrib] using hst
  | cons kv rest ih =>
    intro st k hk hv l hst
    have hstep : merge st (kv :: rest) = merge (mergeItem st kv) rest := rfl
    rw [hstep, contrib_cons]
    by_cases hkk : kv.1 = k
    · have hvl : kv.2.isList = true := hv kv (List.mem_cons_self _ _) (hkk ▸ hk)
      obtain ⟨vl, hvleq⟩ : ∃ vl, kv.2 = Value.vlist vl := by
        cases hkv2 : kv.2 <;> rw [hkv2] at hvl <;> simp [Value.isList] at hvl
        exact ⟨_, rfl⟩
      have hnew : mergeItem st kv k = some (Value.vlist (l ++ vl)) := by
        unfold mergeItem
        rw [if_pos hkk.symm, if_pos ⟨hkk.symm ▸ hk, hvl⟩, hkk, hst, hvleq]
        rfl
      have := ih (mergeItem st kv) k hk
        (fun kv' hm => hv kv' (List.mem_cons_of_mem _ hm)) (l ++ vl) hnew
      rw [this, if_pos hkk, hvleq]
      simp [Value.asList, List.append_assoc]
    · have hnew : mergeItem st kv k = st k := by
        unfold mergeItem
        rw [if_neg (fun hh : k = kv.1 => hkk hh.symm)]
      rw [if_neg hkk]
      exact ih (mergeItem st kv) k hk
        (fun kv' hm => hv kv' (List.mem_cons_of_mem _ hm)) l (hnew.trans hst)

theorem run_merges_acc (updates : List (List (String × Value))) :
    ∀ (st : StateMap) (k : String), k ∈ LIST_APPEND_FIELDS →
      (∀ u ∈ updates, ∀ kv ∈ u, kv.1 ∈ LIST_APPEND_FIELDS → kv.2.isList = true) →
      ∀ l : List Value, st k = some (Value.vlist l) →
      run_merges st updates k
        = some (Value.vlist (l ++ (updates.map (contrib k)).flatten)) := by
  induction updates with
  | nil =>
    intro st k _ _ l hst
    simpa [run_merges] using hst
  | cons u rest ih =>
    intro st k hk hv l hst
    have h1 := merge_acc_key u st k hk (fun kv hm => hv u (List.mem_cons_self _ _) kv hm) l hst
    have h2 := ih (merge st u) k hk
      (fun u' hm => hv u' (List.mem_cons_of_mem _ hm)) (l ++ contrib k u) h1
    have hstep : run_merges st (u :: rest) = run_merges (merge st u) rest := rfl
    rw [hstep, h2]
    simp [List.append_assoc]

theorem merge_overwrite_key (u : List (String × Value)) :
    ∀ (st : StateMap) (k : String), k ∉ LIST_APPEND_FIELDS →
      merge st u k
        = match lastWrite k u with
          | some v => some v
          | none => st k := by
  induction u with
  | nil => intro st k _; rfl
  | cons kv rest ih =>
    intro st k hk
    have hstep : merge st (kv :: rest) = merge (mergeItem st kv) rest := rfl
    rw [hstep, ih (mergeItem st kv) k hk]
    cases hlw : lastWrite k rest with
    | some v => simp [lastWrite, hlw]
    | none =>
      simp only [lastWrite, hlw]
      by_cases hkk : kv.1 = k
      · have hnew : mergeItem st kv k = some kv.2 := by
          unfold mergeItem
          rw [if_pos hkk.symm, if_neg (fun hc => hk (hkk ▸ hc.1))]
        rw [hnew, if_pos hkk]
      · have hnew : mergeItem st kv k = st k := by
          unfold mergeItem
          rw [if_neg (fun hh : k = kv.1 => hkk hh.symm)]
        rw [hnew, if_neg hkk]

theorem run_merges_overwrite (updates : List (List (String × Value))) :
    ∀ (st : StateMap) (k : String), k ∉ LIST_APPEND_FIELDS →
      run_merges st updates k = lastWriteAll k updates (st k) := by
  induction updates with
  | nil => intro st k _; rfl
  | cons u rest ih =>
    intro st k hk
    have hstep : run_merges st (u :: rest) = run_merges (merge st u) rest := rfl
    rw [hstep, ih (merge st u) k hk, merge_overwrite_key u st k hk]
    rfl

theorem mem_contrib {k : String} {u : List (String × Value)} {kv : String × Value}
    (hm : kv ∈ u) (hkk : kv.1 = k) {x : Value} (hx : x ∈ kv.2.asList) :
    x ∈ contrib k u := by
  unfold contrib
  refine List.mem_flatten.mpr ⟨kv.2.asList, List.mem_map.mpr ⟨kv, ?_, rfl⟩, hx⟩
  exact List.mem_filter.mpr ⟨hm, by simp [hkk]⟩

theorem initial_state_acc (address postcode user_id : String) (k : String)
    (hk : k ∈ LIST_APPEND_FIELDS) :
    initial_state address postcode user_id k = some (Value.vlist []) := by
  fin_cases hk <;> rfl

set_option maxHeartbeats 1000000 in
theorem validRun_mem (ns : List Node) (h : ValidRun ns) : ns ∈ validRunList := by
  obtain ⟨hp, he⟩ := h
  have hlen : ns.length = 7 := hp.length_eq
  have hmem : ∀ n : Node, n ∈ ns := fun n => hp.mem_iff.mpr (by cases n <;> decide)
  have hidx : ∀ n : Node, ns.indexOf n < 7 :=
    fun n => hlen ▸ List.indexOf_lt_length.mpr (hmem n)
  have hinj : ∀ a b : Node, ns.indexOf a = ns.indexOf b → a = b :=
    fun a b hab => (List.indexOf_inj (hmem a) (hmem b)).mp hab
  have hget : ∀ (n : Node) (k : ℕ), ns.indexOf n = k →
      ∀ hk : k < ns.length, ns[k] = n := by
    intro n k hk hklt
    subst hk
    exact List.getElem_indexOf hklt
  have e1 : ns.indexOf Node.PropertyValuationAgent < ns.indexOf Node.FloodRiskAgent :=
    he (Node.PropertyValuationAgent, Node.FloodRiskAgent) (by decide)
  have e2 : ns.indexOf Node.PropertyValuationAgent < ns.indexOf Node.EnvironmentalDataAgent :=
    he (Node.PropertyValuationAgent, Node.EnvironmentalDataAgent) (by decide)
  have e3 : ns.indexOf Node.PropertyValuationAgent < ns.indexOf Node.LocalitySafetyAgent :=
    he (Node.PropertyValuationAgent, Node.LocalitySafetyAgent) (by decide)
  have e4 : ns.indexOf Node.FloodRiskAgent < ns.indexOf Node.PolicyAgent :=
    he (Node.FloodRiskAgent, Node.PolicyAgent) (by decide)
  have e5 : ns.indexOf Node.EnvironmentalDataAgent < ns.indexOf Node.PolicyAgent :=
    he (Node.EnvironmentalDataAgent, Node.PolicyAgent) (by decide)
  have e6 : ns.indexOf Node.LocalitySafetyAgent < ns.indexOf Node.PolicyAgent :=
    he (Node.LocalitySafetyAgent, Node.PolicyAgent) (by decide)
  have e7 : ns.indexOf Node.PolicyAgent < ns.indexOf Node.CoordinatorAgent :=
    he (Node.PolicyAgent, Node.CoordinatorAgent) (by decide)
  have e8 : ns.indexOf Node.CoordinatorAgent < ns.indexOf Node.ExplainabilityAgent :=
    he (Node.CoordinatorAgent, Node.ExplainabilityAgent) (by decide)
  have d12 : ns.indexOf Node.FloodRiskAgent ≠ ns.indexOf Node.EnvironmentalDataAgent :=
    fun hh => Node.noConfusion (hinj _ _ hh)
  have d13 : ns.indexOf Node.FloodRiskAgent ≠ ns.indexOf Node.LocalitySafetyAgent :=
    fun hh => Node.noConfusion (hinj _ _ hh)
  have d23 : ns.indexOf Node.EnvironmentalDataAgent ≠ ns.indexOf Node.LocalitySafetyAgent :=
    fun hh => Node.noConfusion (hinj _ _ hh)
  have b0 := hidx Node.PropertyValuationAgent
  have b4 := hidx Node.PolicyAgent
  have b5 := hidx Node.CoordinatorAgent
  have b6 := hidx Node.ExplainabilityAgent
  have h0 : ns.indexOf Node.PropertyValuationAgent = 0 := by omega
  have h4 : ns.indexOf Node.PolicyAgent = 4 := by omega
  have h5 : ns.indexOf Node.CoordinatorAgent = 5 := by omega
  have h6 : ns.indexOf Node.ExplainabilityAgent = 6 := by omega
  have g0 := hget _ _ h0 (by omega)
  have g4 := hget _ _ h4 (by omega)
  have g5 := hget _ _ h5 (by omega)
  have g6 := hget _ _ h6 (by omega)
  have hns : ns = [ns[0], ns[1], ns[2], ns[3], ns[4], ns[5], ns[6]] := by
    apply List.ext_getElem (by simp [hlen])
    intro i hi1 hi2
    rw [hlen] at hi1
    interval_cases i <;> rfl
  have hc1 : ns.indexOf Node.FloodRiskAgent = 1 ∨ ns.indexOf Node.FloodRiskAgent = 2
      ∨ ns.indexOf Node.FloodRiskAgent = 3 := by omega
  have hc2 : ns.indexOf Node.EnvironmentalDataAgent = 1
      ∨ ns.indexOf Node.EnvironmentalDataAgent = 2
      ∨ ns.indexOf Node.EnvironmentalDataAgent = 3 := by omega
  have hc3 : ns.indexOf Node.LocalitySafetyAgent = 1 ∨ ns.indexOf Node.LocalitySafetyAgent = 2
      ∨ ns.indexOf Node.LocalitySafetyAgent = 3 := by omega
  rcases hc1 with hx1 | hx1 | hx1 <;> rcases hc2 with hx2 | hx2 | hx2 <;>
      rcases hc3 with hx3 | hx3 | hx3 <;>
    first
    | omega
    | (have ga := hget _ _ hx1 (by omega)
       have gb := hget _ _ hx2 (by omega)
       have gc := hget _ _ hx3 (by omega)
       rw [hns]
       simp only [g0, g4, g5, g6, ga, gb, gc]
       decide)

/-- C2: in every streaming run (any `astream` order consistent with the
dependency graph), the emitted event sequence has exactly one
`agent_start` and one `agent_end` per stage with the start strictly
before the end; PolicyAgent's start comes only after the end events of
all three fan-out stages, whatever their completion order; and a single
`result` event followed by the `[DONE]` sentinel closes the stream. -/
theorem run_assessment_streaming_event_protocol (ns : List Node) (h : ValidRun ns) :
    (∀ n : Node,
      (run_assessment_streaming_events ns).count (SseEvent.agent_start n) = 1
      ∧ (run_assessment_streaming_events ns).count (SseEvent.agent_end n) = 1
      ∧ (run_assessment_streaming_events ns).indexOf (SseEvent.agent_start n)
          < (run_assessment_streaming_events ns).indexOf (SseEvent.agent_end n))
    ∧ (∀ a ∈ PARALLEL_AGENTS,
        (run_assessment_streaming_events ns).indexOf (SseEvent.agent_end a)
          < (run_assessment_streaming_events ns).indexOf (SseEvent.agent_start Node.PolicyAgent))
    ∧ (run_assessment_streaming_events ns).count SseEvent.result = 1
    ∧ (run_assessment_streaming_events ns).count SseEvent.done = 1
    ∧ (run_assessment_streaming_events ns).drop
        ((run_assessment_streaming_events ns).length - 2)
        = [SseEvent.result, SseEvent.done] := by
  have hm := validRun_mem ns h
  simp only [validRunList, List.map_cons, List.map_nil, List.mem_cons,
    List.not_mem_nil, or_false] at hm
  rcases hm with rfl | rfl | rfl | rfl | rfl | rfl <;> decide

/-- Witness for C2 at a concrete update order. -/
theorem run_assessment_streaming_event_protocol_witness :
    ValidRun [Node.PropertyValuationAgent, Node.EnvironmentalDataAgent, Node.FloodRiskAgent,
      Node.LocalitySafetyAgent, Node.PolicyAgent, Node.CoordinatorAgent,
      Node.ExplainabilityAgent]
    ∧ (run_assessment_streaming_events
        [Node.PropertyValuationAgent, Node.EnvironmentalDataAgent, Node.FloodRiskAgent,
         Node.LocalitySafetyAgent, Node.PolicyAgent, Node.CoordinatorAgent,
         Node.ExplainabilityAgent]).count SseEvent.result = 1 :=
  ⟨⟨by decide, by decide⟩,
   (run_assessment_streaming_event_protocol _ ⟨by decide, by decide⟩).2.2.1⟩

/-- C3: merging stage updates concatenates list entries onto the
accumulating fields `data_collection_errors` and `errors` in arrival
order with no entry ever dropped - whatever the interleaving of fan-out
completions, i.e. for every update sequence - while fields outside the
accumulating set end up holding the latest write. -/
theorem merge_accumulates_and_overwrites
    (updates : List (List (String × Value))) (address postcode user_id : String)
    (hv : ∀ u ∈ updates, ∀ kv ∈ u, kv.1 ∈ LIST_APPEND_FIELDS → kv.2.isList = true) :
    (∀ k ∈ ["data_collection_errors", "errors"],
      run_merges (initial_state address postcode user_id) updates k
        = some (Value.vlist ((updates.map (contrib k)).flatten))
      ∧ ∀ u ∈ updates, ∀ kv ∈ u, kv.1 = k → ∀ x ∈ kv.2.asList,
          x ∈ pyListOrEmpty (run_merges (initial_state address postcode user_id) updates k))
    ∧ ∀ k, k ∉ LIST_APPEND_FIELDS →
        run_merges (initial_state address postcode user_id) updates k
          = lastWriteAll k updates (initial_state address postcode user_id k) := by
  constructor
  · intro k hkmem
    have hk : k ∈ LIST_APPEND_FIELDS := by fin_cases hkmem <;> decide
    have heq := run_merges_acc updates (initial_state address postcode user_id) k hk hv []
      (initial_state_acc address postcode user_id k hk)
    rw [List.nil_append] at heq
    refine ⟨heq, ?_⟩
    intro u hu kv hkv hk1 x hx
    rw [heq]
    show x ∈ (updates.map (contrib k)).flatten
    exact List.mem_flatten.mpr ⟨contrib k u, List.mem_map.mpr ⟨u, hu, rfl⟩,
      mem_contrib hkv hk1 hx⟩
  · intro k hk
    exact run_merges_overwrite updates _ k hk

/-- Witness for C3: two stage updates both appending to `errors`, one
overwriting `decision`. -/
theorem merge_accumulates_and_overwrites_witness :
    run_merges (initial_state "1 High St" "AB1 2CD" "u1")
      [[("errors", Value.vlist [Value.vs "a"])],
       [("errors", Value.vlist [Value.vs "b"]), ("decision", Value.vs "accept")]]
      "errors"
      = some (Value.vlist [Value.vs "a", Value.vs "b"]) := by
  have h := (merge_accumulates_and_overwrites
    [[("errors", Value.vlist [Value.vs "a"])],
     [("errors", Value.vlist [Value.vs "b"]), ("decision", Value.vs "accept")]]
    "1 High St" "AB1 2CD" "u1"
    (by
      intro u hu kv hkv hf
      fin_cases hu <;> fin_cases hkv <;> first | rfl | exact absurd hf (by decide)))
    |>.1 "errors" (by decide)
  exact h.1.trans rfl

/-- C1 (code bug evidence): the stage wrapper contract is violated by
`coordinator_agent` - when the reasoning oracle returns an HTTP success
whose body is syntactically valid JSON but carries a non-numeric
`overall_risk_score`, the `float()` conversion on line 121 of
coordinator_agent.py runs outside the `try`/`except` and raises
`ValueError` out of the stage, so the run fails instead of degrading. -/
theorem coordinator_agent_raises_on_ill_typed_oracle :
    coordinator_agent
      { flood_risk_score := some 20, planning_risk_score := some 10,
        property_age_risk_score := some 30, locality_safety_score := some 25 }
      (Except.ok [("overall_risk_score", Value.vs "high")])
      = Except.error ("ValueError: could not convert string to float: " ++ "high") := rfl

/-- C4: the deterministic fallback's overall score is the weighted sum
0.40×flood + 0.20×planning + 0.25×age + 0.15×locality rounded to one
decimal place, for all sub-scores. -/
theorem fallback_overall_weighted_sum (f p a l : ℚ) (e : String) :
    (fallback_decision f p a l e).overall_risk_score
      = pyRound (0.40 * f + 0.20 * p + 0.25 * a + 0.15 * l) 1 := by
  show pyRound (f * 0.40 + p * 0.20 + a * 0.25 + l * 0.15) 1 = _
  congr 1
  ring

/-- C5: the deterministic fallback's decision is "accept" exactly when
the overall score is below 60, "refer" exactly when it is in [60, 80),
and "decline" exactly when it is at least 80; a score of exactly 60.0
yields "refer" and exactly 80.0 yields "decline". -/
theorem fallback_decision_thresholds (f p a l : ℚ) (e : String) :
    ((fallback_decision f p a l e).decision = "accept"
        ↔ (fallback_decision f p a l e).overall_risk_score < 60)
    ∧ ((fallback_decision f p a l e).decision = "refer"
        ↔ 60 ≤ (fallback_decision f p a l e).overall_risk_score
          ∧ (fallback_decision f p a l e).overall_risk_score < 80)
    ∧ ((fallback_decision f p a l e).decision = "decline"
        ↔ 80 ≤ (fallback_decision f p a l e).overall_risk_score)
    ∧ (fallback_decision 0 0 240 0 e).overall_risk_score = 60
    ∧ (fallback_decision 0 0 240 0 e).decision = "refer"
    ∧ (fallback_decision 0 0 320 0 e).overall_risk_score = 80
    ∧ (fallback_decision 0 0 320 0 e).decision = "decline" := by
  have hdec : (fallback_decision f p a l e).decision
      = (if (fallback_decision f p a l e).overall_risk_score < 60 then "accept"
         else if (fallback_decision f p a l e).overall_risk_score < 80 then "refer"
         else "decline") := rfl
  refine ⟨?_, ?_, ?_, ?_, ?_, ?_, ?_⟩
  · rw [hdec]
    split_ifs with h1 h2 <;> simp_all
  · rw [hdec]
    split_ifs with h1 h2
    · constructor
      · intro hh
        exact absurd hh (by decide)
      · rintro ⟨h60, _⟩
        linarith
    · constructor
      · intro _
        exact ⟨le_of_not_lt h1, h2⟩
      · intro _
        rfl
    · constructor
      · intro hh
        exact absurd hh (by decide)
      · rintro ⟨_, h80⟩
        exact absurd h80 h2
  · rw [hdec]
    split_ifs with h1 h2
    · constructor
      · intro hh
        exact absurd hh (by decide)
      · intro h80
        linarith
    · constructor
      · intro hh
        exact absurd hh (by decide)
      · intro h80
        linarith
    · constructor
      · intro _
        exact le_of_not_lt h2
      · intro _
        rfl
  · show pyRound (0 * 0.40 + 0 * 0.20 + 240 * 0.25 + 0 * 0.15) 1 = 60
    unfold pyRound
    norm_num
  · show (if _ < (60:ℚ) then "accept" else if _ < 80 then "refer" else "decline") = "refer"
    unfold pyRound
    norm_num
  · show pyRound (0 * 0.40 + 0 * 0.20 + 320 * 0.25 + 0 * 0.15) 1 = 80
    unfold pyRound
    norm_num
  · show (if _ < (60:ℚ) then "accept" else if _ < 80 then "refer" else "decline") = "decline"
    unfold pyRound
    norm_num

/-- C6 counterexample: with sub-scores flood=0, planning=0, age=85.2,
locality=0 the fallback's overall score is 21.3, the code returns
multiplier round(1.426, 2) = 1.43, but the claimed formula
clamp(1.0 + (21.3/100)×2.0, 0.8, 3.0) gives 1.426 - the code rounds to
2 decimals before clamping, so the claimed equality fails. -/
theorem fallback_multiplier_not_bare_clamp :
    (fallback_decision 0 0 85.2 0 "oracle down").premium_multiplier
      ≠ max 0.8 (min
          (1.0 + ((fallback_decision 0 0 85.2 0 "oracle down").overall_risk_score / 100) * 2.0)
          3.0) := by
  unfold fallback_decision pyRound
  norm_num

/-- C6 amended: for every overall score s produced by the deterministic
fallback, the returned premium multiplier equals
clamp(round(1.0 + (s/100)×2.0, 2), 0.8, 3.0) - the value is rounded to
two decimal places before clamping. -/
theorem fallback_multiplier_round_then_clamp (f p a l : ℚ) (e : String) :
    (fallback_decision f p a l e).premium_multiplier
      = max 0.8 (min
          (pyRound (1.0 + ((fallback_decision f p a l e).overall_risk_score / 100) * 2.0) 2)
          3.0) := rfl

/-- C7 counterexample: with sub-scores flood=20, planning=10, age=30,
locality=25 the weighted sum is exactly 21.25, and Python's banker's
rounding gives round(21.25, 1) = 21.2, not the claimed 21.3. -/
theorem fallback_scenario_not_21_3 :
    (fallback_decision 20 10 30 25 "oracle unavailable").overall_risk_score ≠ 21.3 := by
  unfold fallback_decision pyRound
  norm_num

/-- C7 amended: with sub-scores flood=20, planning=10, age=30,
locality=25 and the oracle unavailable, the deterministic fallback yields
overall score 21.2 (banker's rounding of 21.25), decision "accept", and
premium multiplier 1.42. -/
theorem fallback_scenario_values :
    (fallback_decision 20 10 30 25 "oracle unavailable").overall_risk_score = 21.2
    ∧ (fallback_decision 20 10 30 25 "oracle unavailable").decision = "accept"
    ∧ (fallback_decision 20 10 30 25 "oracle unavailable").premium_multiplier = 1.42 := by
  refine ⟨?_, ?_, ?_⟩ <;> (unfold fallback_decision pyRound; norm_num)

/-- C8: when latitude or longitude is absent, both coordinate-dependent
stages short-circuit to their documented neutral values - flood zone
"unknown" with score 20.0, locality score 25.0 - each appending one entry
to the accumulating `data_collection_errors` field, and contact no
external endpoint (the call list is empty: the agent returns before any
HTTP client is created). -/
theorem missing_coordinates_short_circuit (latitude longitude : Option ℚ)
    (zoneData : Option (List Entity)) (severities : List ℤ)
    (crimesOutcome : Except String (List String))
    (h : latitude = none ∨ longitude = none) :
    flood_risk_agent latitude longitude zoneData severities
      = ({ flood_zone := "unknown", flood_risk_score := 20.0,
           data_collection_errors := ["Flood zone evaluation skipped: no coordinates."] }, [])
    ∧ locality_safety_agent latitude longitude crimesOutcome
      = ({ locality_safety_score := 25.0, locality_safety_label := "Low Crime",
           data_collection_errors := ["Locality safety evaluation skipped: no coordinates."] },
         []) := by
  rcases h with rfl | rfl
  · exact ⟨rfl, rfl⟩
  · cases latitude <;> exact ⟨rfl, rfl⟩

/-- Witness for C8 at a concrete state with missing latitude. -/
theorem missing_coordinates_short_circuit_witness :
    (flood_risk_agent none (some 51.5) none []).2 = []
    ∧ (locality_safety_agent none (some 51.5) (Except.ok [])).2 = [] := by
  have h := missing_coordinates_short_circuit none (some 51.5) none [] (Except.ok [])
    (Or.inl rfl)
  exact ⟨by rw [h.1], by rw [h.2]⟩

/-- C9 (code bug evidence): an exception while inserting the assessment
record does propagate out of `run_assessment` (first conjunct), but
persistence failure is not the sole run-time-fatal error class: an
ill-typed reasoning-oracle response also raises out of its stage and
fails the run (second conjunct). -/
theorem persistence_failure_propagates_but_is_not_sole_fatal :
    run_assessment (Except.ok (initial_state "1 High St" "AB1 2CD" "u1"))
      (Except.error "ServerSelectionTimeoutError: mongodb unreachable") (Except.ok ())
      = Except.error "ServerSelectionTimeoutError: mongodb unreachable"
    ∧ coordinator_agent
        { flood_risk_score := some 20, planning_risk_score := some 10,
          property_age_risk_score := some 30, locality_safety_score := some 25 }
        (Except.ok [("overall_risk_score", Value.vs "not-a-number")])
      = Except.error ("ValueError: could not convert string to float: " ++ "not-a-number") :=
  ⟨rfl, rfl⟩

/-- C10 counterexample: a successful, non-empty flood-zone response whose
entities carry no recognisable zone also yields flood_zone "unknown" with
score 20 and a warning - not only a failed or empty response, as the
claim states. -/
theorem flood_zone_unknown_on_unparsed_entities :
    classify_flood_zone
      (some [{ flood_risk_level := "", reference := "", name := "surface water risk area" }])
      = { flood_zone := "unknown", base_score := 20,
          errors := [floodZoneUnavailableMsg] } := rfl

/-- C10 amended: a successful response with an empty entity list is
classified as Flood Zone "1" with base score 5 and no warning; the
holding value "unknown" with score 20 and one warning arises both when
the source failed (or returned an empty body) and when a successful,
non-empty response's entities contain no parsable zone. -/
theorem flood_zone_classification_cases (es : List Entity) :
    classify_flood_zone (some []) = { flood_zone := "1", base_score := 5, errors := [] }
    ∧ classify_flood_zone none
      = { flood_zone := "unknown", base_score := 20, errors := [floodZoneUnavailableMsg] }
    ∧ (es ≠ [] → parse_zone es = none →
        classify_flood_zone (some es)
          = { flood_zone := "unknown", base_score := 20,
              errors := [floodZoneUnavailableMsg] }) := by
  refine ⟨rfl, rfl, fun hne hpz => ?_⟩
  simp only [classify_flood_zone, Option.getD, hpz]
  rw [if_neg (by simpa [List.isEmpty_iff] using hne)]

/-- Witness for C10 at a concrete unparsable entity list. -/
theorem flood_zone_classification_cases_witness :
    classify_flood_zone
      (some [{ flood_risk_level := "flood storage area", reference := "p7",
               name := "holding pond" }])
      = { flood_zone := "unknown", base_score := 20,
          errors := [floodZoneUnavailableMsg] } :=
  (flood_zone_classification_cases _).2.2 (List.cons_ne_nil _ _) rfl
